import Mathlib

/-!
# Verification of `CDllHelper` (src/lib/kodi/tools/DllHelper.h)

Shallow embedding of the dynamic-library helper class `CDllHelper`.

Modelling choices:
* Native pointers (the `void* m_dll` handle, resolved symbol addresses,
  `dlopen` results) are `Nat`, with `0` encoding the C null pointer.
* The external collaborators (the virtual filesystem `kodi::vfs`, the
  logger `kodi::Log`, and the native loader `dlopen`/`dlsym`/`dlclose`/
  `dlerror`) are an environment record `Env` of abstract functions; a
  concrete `Env` instance plays the role of a fake loader in a test.
* `clock_gettime(CLOCK_REALTIME, ts)` at the two call sites inside
  `LoadDll` is modelled by the two fields `clockDst` and `clockSrc`:
  `some t` means the call succeeded and wrote `t` into the pointed-to
  `timespec`; `none` means it returned `-1` (the pointed-to value is then
  modelled as left unchanged).
* Methods are pure state transformers returning the C++ return value, the
  successor state and the list of observable events (log lines, copy
  attempts, `dlopen`/`dlclose` invocations) in source order.
-/

/-- A native address; `0` encodes the C null pointer. -/
abbrev Addr := Nat

/-- `struct timespec`: seconds and nanoseconds. -/
structure Timespec where
  tv_sec : Int
  tv_nsec : Int
deriving DecidableEq, Repr

/-- The fields of `STAT_STRUCTURE` read by `LoadDll`. -/
structure StatStructure where
  size : Nat
  modificationTime : Timespec
deriving DecidableEq, Repr

/-- The C11 macro `TIME_UTC` (value 1 on the target C libraries). -/
def TIME_UTC : Int := 1

/-- Observable events emitted by the helper: log lines, a copy attempt
with its outcome, and the native loader calls `dlopen`/`dlclose`. -/
inductive Event where
  | logDebug (msg : String)
  | logError (msg : String)
  | copyFileCall (src dst : String) (ok : Bool)
  | dlopenCall (path : String)
  | dlcloseCall (handle : Addr)
deriving DecidableEq, Repr

/-- External collaborators: the `kodi::vfs` filesystem service, the native
loader, and the outcomes of the two `clock_gettime` reads performed by the
`timespec_get` helper during one `LoadDll` call. -/
structure Env where
  /-- `kodi::vfs::FileExists` -/
  fileExists : String → Bool
  /-- `kodi::vfs::TranslateSpecialProtocol` -/
  translateSpecial : String → String
  /-- `kodi::vfs::GetFileName` -/
  getFileName : String → String
  /-- `kodi::vfs::StatFile`; `none` models a `false` return. -/
  statFile : String → Option StatStructure
  /-- `kodi::vfs::CopyFile` -/
  copyFile : String → String → Bool
  /-- `dlopen(path, RTLD_LAZY)`; `0` models a null result. -/
  dlopen : String → Addr
  /-- `dlsym(handle, name)`; `0` models a null result. The first argument
  ranges over all `Addr`, including the null handle `0`, because the
  source forwards `m_dll` to `dlsym` without a null check. -/
  dlsym : Addr → String → Addr
  /-- `dlerror()` -/
  dlerror : String
  /-- Outcome of `clock_gettime(CLOCK_REALTIME, _)` for the destination
  file call site (first operand of the comparison on line 103). -/
  clockDst : Option Timespec
  /-- Outcome of `clock_gettime(CLOCK_REALTIME, _)` for the source file
  call site (second operand of the comparison on line 103). -/
  clockSrc : Option Timespec

/-- The state of a `CDllHelper` instance: the single owned handle
`void* m_dll = nullptr`, null (`0`) while unloaded. -/
structure CDllHelper where
  m_dll : Addr
deriving DecidableEq, Repr

/-- A freshly constructed instance: `m_dll = nullptr`. -/
def CDllHelper.unloaded : CDllHelper := ⟨0⟩

/-- `CDllHelper::timespec_get` (lines 156-159):
`return (base == TIME_UTC && clock_gettime(CLOCK_REALTIME, ts) != -1) ? base : 0;`
Takes the current contents of the pointed-to `timespec`, the `base`
argument, and the outcome of the (potential) `clock_gettime` call; returns
the C return value together with the contents of the `timespec` after the
call. The `&&` short-circuits: when `base` is not `TIME_UTC`, the clock is
never read and the `timespec` is untouched. -/
def timespec_get (ts : Timespec) (base : Int) (clock : Option Timespec) :
    Int × Timespec :=
  if base = TIME_UTC then
    match clock with
    | some t => (base, t)
    | none => (0, ts)
  else
    (0, ts)

/-- The `doCopy` computation of `CDllHelper::LoadDll` (lines 94-106):
`doCopy` starts `true`; if both files stat successfully, the sizes are
equal, and `timespec_get(&dstStat.modificationTime, TIME_UTC) >
timespec_get(&srcStat.modificationTime, TIME_UTC)`, it becomes `false`. -/
def doCopyCheck (env : Env) (path dstfile : String) : Bool :=
  match env.statFile dstfile with
  | none => true
  | some dstFileStat =>
    match env.statFile path with
    | none => true
    | some srcFileStat =>
      if dstFileStat.size = srcFileStat.size ∧
          (timespec_get dstFileStat.modificationTime TIME_UTC env.clockDst).1 >
            (timespec_get srcFileStat.modificationTime TIME_UTC env.clockSrc).1 then
        false
      else
        true

/-- The platform-independent core of `CDllHelper::LoadDll` (lines 127-133):
`m_dll = dlopen(path.c_str(), RTLD_LAZY); if (m_dll == nullptr) { log; return false; } return true;`
Note that `m_dll` is assigned the `dlopen` result unconditionally. -/
def LoadDll (env : Env) (st : CDllHelper) (path : String) :
    Bool × CDllHelper × List Event :=
  let m := env.dlopen path
  let st := { st with m_dll := m }
  if m = 0 then
    (false, st, [Event.dlopenCall path,
                 Event.logError ("Unable to load " ++ env.dlerror)])
  else
    (true, st, [Event.dlopenCall path])

/-- `CDllHelper::LoadDll` as compiled with `TARGET_ANDROID` (lines 85-134):
the staging block (lines 87-125) followed by the core `dlopen` step.
`path.compare(0, n, xbmcaltbinaddons) == 0` is the prefix test. -/
def LoadDllAndroid (env : Env) (st : CDllHelper) (path : String) :
    Bool × CDllHelper × List Event :=
  if env.fileExists path then
    let xbmcaltbinaddons := env.translateSpecial "special://xbmcaltbinaddons/"
    if xbmcaltbinaddons.data.isPrefixOf path.data then
      LoadDll env st path
    else
      let dstfile := xbmcaltbinaddons ++ env.getFileName path
      if doCopyCheck env path dstfile then
        let ok := env.copyFile path dstfile
        let evs := [Event.logDebug ("Caching " ++ path ++ " to " ++ dstfile),
                    Event.copyFileCall path dstfile ok]
        if ok then
          let r := LoadDll env st dstfile
          (r.1, r.2.1, evs ++ r.2.2)
        else
          (false, st,
            evs ++ [Event.logError ("Failed to cache " ++ path ++ " to " ++ dstfile)])
      else
        LoadDll env st dstfile
  else
    (false, st, [])

/-- `CDllHelper::RegisterSymbol` (lines 141-151): the slot is assigned
`dlsym(m_dll, strFunctionPtr)` unconditionally; the call reports failure
exactly when the assigned address is null. Returns the C++ boolean, the
slot contents after the call, and the emitted log events. The prior slot
contents `functionPtr` are shadowed by the assignment, exactly as the
source overwrites the reference parameter before testing it. -/
def RegisterSymbol (env : Env) (st : CDllHelper) (functionPtr : Addr)
    (strFunctionPtr : String) : Bool × Addr × List Event :=
  let functionPtr := env.dlsym st.m_dll strFunctionPtr
  if functionPtr = 0 then
    (false, functionPtr,
      [Event.logError ("Unable to assign function " ++ env.dlerror)])
  else
    (true, functionPtr, [])

/-- `CDllHelper::~CDllHelper` (lines 74-78): `if (m_dll) dlclose(m_dll);`.
Returns the list of `dlclose` invocations performed. -/
def dtorCDllHelper (st : CDllHelper) : List Event :=
  if st.m_dll ≠ 0 then [Event.dlcloseCall st.m_dll] else []

/-- `src ≤ dst` on `timespec` values, lexicographically: `dst` is not
earlier than `src`. -/
def tsNotEarlier (src dst : Timespec) : Bool :=
  decide (src.tv_sec < dst.tv_sec ∨
    (src.tv_sec = dst.tv_sec ∧ src.tv_nsec ≤ dst.tv_nsec))

/-- Modelled from the spec (for comparison with `doCopyCheck`, not from
the source): the staging predicate the spec prescribes, "copy unless
destination exists AND sizes match AND destination mod-time is not
earlier than source mod-time". `true` means the copy is skipped. -/
def specSkipCopy (env : Env) (path dstfile : String) : Bool :=
  match env.statFile dstfile, env.statFile path with
  | some dstStat, some srcStat =>
    decide (dstStat.size = srcStat.size) &&
      tsNotEarlier srcStat.modificationTime dstStat.modificationTime
  | _, _ => false

/-- A base environment for concrete test instantiations. -/
def envBase : Env where
  fileExists := fun _ => false
  translateSpecial := fun _ => "/alt/"
  getFileName := fun _ => "lib.so"
  statFile := fun _ => none
  copyFile := fun _ _ => false
  dlopen := fun _ => 0
  dlsym := fun _ _ => 0
  dlerror := "err"
  clockDst := none
  clockSrc := none

/-- Environment for the staging analysis: the source file exists outside
the special directory, both files stat successfully with equal sizes, the
destination is strictly newer than the source, and both clock reads
succeed. -/
def envC1 : Env := { envBase with
  fileExists := fun p => p == "/x/lib.so"
  statFile := fun p =>
    if p == "/alt/lib.so" then some ⟨100, ⟨2000, 0⟩⟩
    else if p == "/x/lib.so" then some ⟨100, ⟨1000, 0⟩⟩
    else none
  copyFile := fun _ _ => true
  dlopen := fun _ => 7
  clockDst := some ⟨5000, 0⟩
  clockSrc := some ⟨5000, 0⟩ }

/-- C1: the staging cache check is broken in the source. With the
destination present, sizes equal, destination mod-time (2000 s) not
earlier than the source mod-time (1000 s), and both clock reads
succeeding, the spec-prescribed predicate says the copy is skipped, but
`timespec_get` returns `TIME_UTC` for both operands (it ignores the
mod-times), the comparison `TIME_UTC > TIME_UTC` is false, `doCopy`
stays true, and `LoadDll` performs the copy anyway. -/
theorem c1_staging_check_ignores_modtime :
    specSkipCopy envC1 "/x/lib.so" "/alt/lib.so" = true ∧
    doCopyCheck envC1 "/x/lib.so" "/alt/lib.so" = true ∧
    Event.copyFileCall "/x/lib.so" "/alt/lib.so" true ∈
      (LoadDllAndroid envC1 CDllHelper.unloaded "/x/lib.so").2.2 := by
  decide

/-- Environment whose resolver treats the null handle like
`RTLD_DEFAULT` and finds the symbol in the global scope, as glibc and
64-bit Android bionic do (there `RTLD_DEFAULT` is the null pointer). -/
def envC2 : Env := { envBase with
  dlsym := fun handle name =>
    if handle == 0 && name == "sym" then 5 else 0 }

/-- C2 counterexample: `RegisterSymbol` on a never-loaded instance
(`m_dll = 0`) returns success when the native resolver resolves the name
against the null handle, refuting the claim that such a call returns
failure for every symbol name: the source has no null-handle guard and
forwards `m_dll` straight to `dlsym`. -/
theorem c2_null_handle_can_succeed :
    (RegisterSymbol envC2 CDllHelper.unloaded 0 "sym").1 = true := by
  decide

/-- C2 (amended): `RegisterSymbol` on a never-loaded instance passes the
null handle to the native resolver unguarded; it returns failure exactly
when the resolver returns the null address for the null handle and the
given name, and the slot receives the resolver result in every case. -/
theorem c2_null_handle_result (env : Env) (st : CDllHelper) (slot : Addr)
    (name : String) (h : st.m_dll = 0) :
    ((RegisterSymbol env st slot name).1 = false ↔ env.dlsym 0 name = 0) ∧
    (RegisterSymbol env st slot name).2.1 = env.dlsym 0 name := by
  unfold RegisterSymbol
  rw [h]
  by_cases hd : env.dlsym 0 name = 0 <;> simp [hd]

/-- Closed instantiation of `c2_null_handle_result`. -/
theorem c2_null_handle_result_witness :
    ((RegisterSymbol envBase CDllHelper.unloaded 0 "f").1 = false ↔
      envBase.dlsym 0 "f" = 0) ∧
    (RegisterSymbol envBase CDllHelper.unloaded 0 "f").2.1 =
      envBase.dlsym 0 "f" :=
  c2_null_handle_result envBase CDllHelper.unloaded 0 "f" rfl

/-- C3 counterexample: with a loaded handle (7) and a slot previously
holding the address 9, a failing `RegisterSymbol` call overwrites the
slot with the null address instead of leaving it at its prior value: the
assignment happens before the success test. -/
theorem c3_failed_bind_clobbers_slot :
    (RegisterSymbol envBase ⟨7⟩ 9 "f").1 = false ∧
    (RegisterSymbol envBase ⟨7⟩ 9 "f").2.1 = 0 ∧
    (RegisterSymbol envBase ⟨7⟩ 9 "f").2.1 ≠ 9 := by
  decide

/-- C3 (amended): the slot is assigned the resolver result
unconditionally, so after a failing call it holds the null address —
never its prior contents. -/
theorem c3_slot_always_assigned (env : Env) (st : CDllHelper) (slot : Addr)
    (name : String) :
    (RegisterSymbol env st slot name).2.1 = env.dlsym st.m_dll name ∧
    ((RegisterSymbol env st slot name).1 = false →
      (RegisterSymbol env st slot name).2.1 = 0) := by
  unfold RegisterSymbol
  by_cases hd : env.dlsym st.m_dll name = 0 <;> simp [hd]

/-- Closed instantiation of `c3_slot_always_assigned`. -/
theorem c3_slot_always_assigned_witness :
    (RegisterSymbol envBase ⟨7⟩ 9 "g").2.1 =
      envBase.dlsym (CDllHelper.mk 7).m_dll "g" ∧
    ((RegisterSymbol envBase ⟨7⟩ 9 "g").1 = false →
      (RegisterSymbol envBase ⟨7⟩ 9 "g").2.1 = 0) :=
  c3_slot_always_assigned envBase ⟨7⟩ 9 "g"

/-- C4: a successful `LoadDll` stores the `dlopen` handle, and a
subsequent `RegisterSymbol` for a symbol the loader resolves on that
handle succeeds and leaves the slot equal to — and hence as non-null as —
the address the resolver reports. -/
theorem c4_load_then_bind (env : Env) (st : CDllHelper) (path name : String)
    (slot : Addr) (hOpen : env.dlopen path ≠ 0)
    (hSym : env.dlsym (env.dlopen path) name ≠ 0) :
    (LoadDll env st path).1 = true ∧
    (LoadDll env st path).2.1.m_dll = env.dlopen path ∧
    (RegisterSymbol env (LoadDll env st path).2.1 slot name).1 = true ∧
    (RegisterSymbol env (LoadDll env st path).2.1 slot name).2.1 =
      env.dlsym (env.dlopen path) name ∧
    (RegisterSymbol env (LoadDll env st path).2.1 slot name).2.1 ≠ 0 := by
  unfold LoadDll RegisterSymbol
  simp [hOpen, hSym]

/-- Environment with a fixed open handle 7 exporting the symbol Init at
address 11. -/
def envC4 : Env := { envBase with
  dlopen := fun _ => 7
  dlsym := fun h n => if h == 7 && n == "Init" then 11 else 0 }

/-- Closed instantiation of `c4_load_then_bind`. -/
theorem c4_load_then_bind_witness :
    (LoadDll envC4 CDllHelper.unloaded "/x/lib.so").1 = true ∧
    (LoadDll envC4 CDllHelper.unloaded "/x/lib.so").2.1.m_dll =
      envC4.dlopen "/x/lib.so" ∧
    (RegisterSymbol envC4 (LoadDll envC4 CDllHelper.unloaded "/x/lib.so").2.1
      0 "Init").1 = true ∧
    (RegisterSymbol envC4 (LoadDll envC4 CDllHelper.unloaded "/x/lib.so").2.1
      0 "Init").2.1 = envC4.dlsym (envC4.dlopen "/x/lib.so") "Init" ∧
    (RegisterSymbol envC4 (LoadDll envC4 CDllHelper.unloaded "/x/lib.so").2.1
      0 "Init").2.1 ≠ 0 :=
  c4_load_then_bind envC4 CDllHelper.unloaded "/x/lib.so" "Init" 0
    (by decide) (by decide)

/-- C5: on a nonexistent path — the Android existence check fails and the
native `dlopen` returns null — both variants of `LoadDll` return failure
on an unloaded instance and leave the handle null. -/
theorem c5_load_missing_path (env : Env) (st : CDllHelper) (path : String)
    (hSt : st.m_dll = 0) (hEx : env.fileExists path = false)
    (hOp : env.dlopen path = 0) :
    (LoadDllAndroid env st path).1 = false ∧
    (LoadDllAndroid env st path).2.1.m_dll = 0 ∧
    (LoadDll env st path).1 = false ∧
    (LoadDll env st path).2.1.m_dll = 0 := by
  unfold LoadDllAndroid LoadDll
  simp [hEx, hOp, hSt]

/-- Closed instantiation of `c5_load_missing_path`. -/
theorem c5_load_missing_path_witness :
    (LoadDllAndroid envBase CDllHelper.unloaded "/none").1 = false ∧
    (LoadDllAndroid envBase CDllHelper.unloaded "/none").2.1.m_dll = 0 ∧
    (LoadDll envBase CDllHelper.unloaded "/none").1 = false ∧
    (LoadDll envBase CDllHelper.unloaded "/none").2.1.m_dll = 0 :=
  c5_load_missing_path envBase CDllHelper.unloaded "/none" rfl rfl rfl

/-- C6: the destructor closes a non-null handle exactly once — the single
`dlclose` is on the owned handle — and performs no close when the handle
is null. -/
theorem c6_dtor_close_counts (st : CDllHelper) :
    (st.m_dll ≠ 0 → dtorCDllHelper st = [Event.dlcloseCall st.m_dll]) ∧
    (st.m_dll = 0 → dtorCDllHelper st = []) := by
  unfold dtorCDllHelper
  by_cases h : st.m_dll = 0 <;> simp [h]

/-- Closed instantiation of `c6_dtor_close_counts`. -/
theorem c6_dtor_close_counts_witness :
    dtorCDllHelper ⟨7⟩ = [Event.dlcloseCall 7] ∧ dtorCDllHelper ⟨0⟩ = [] :=
  ⟨(c6_dtor_close_counts ⟨7⟩).1 (by decide), (c6_dtor_close_counts ⟨0⟩).2 rfl⟩

/-- C7: on the Android variant, when the file exists outside the special
directory, the staging check requests a copy, and the copy fails, the
load returns failure, leaves the state unchanged, never reaches `dlopen`,
and logs both the attempted cache operation (debug) and its failure
(error). -/
theorem c7_copy_failure_aborts (env : Env) (st : CDllHelper) (path : String)
    (hEx : env.fileExists path = true)
    (hNp : (env.translateSpecial "special://xbmcaltbinaddons/").data.isPrefixOf
      path.data = false)
    (hDo : doCopyCheck env path
      (env.translateSpecial "special://xbmcaltbinaddons/" ++
        env.getFileName path) = true)
    (hCp : env.copyFile path
      (env.translateSpecial "special://xbmcaltbinaddons/" ++
        env.getFileName path) = false) :
    (LoadDllAndroid env st path).1 = false ∧
    (LoadDllAndroid env st path).2.1 = st ∧
    (∀ q, Event.dlopenCall q ∉ (LoadDllAndroid env st path).2.2) ∧
    Event.logDebug ("Caching " ++ path ++ " to " ++
      (env.translateSpecial "special://xbmcaltbinaddons/" ++
        env.getFileName path)) ∈ (LoadDllAndroid env st path).2.2 ∧
    Event.logError ("Failed to cache " ++ path ++ " to " ++
      (env.translateSpecial "special://xbmcaltbinaddons/" ++
        env.getFileName path)) ∈ (LoadDllAndroid env st path).2.2 := by
  unfold LoadDllAndroid
  simp [hEx, hNp, hDo, hCp]

/-- Environment whose only existing file is the library source path; the
destination never stats (so the copy is requested) and every copy fails. -/
def envC7 : Env := { envBase with
  fileExists := fun p => p == "/x/lib.so" }

/-- Closed instantiation of `c7_copy_failure_aborts`. -/
theorem c7_copy_failure_aborts_witness :
    (LoadDllAndroid envC7 CDllHelper.unloaded "/x/lib.so").1 = false ∧
    (LoadDllAndroid envC7 CDllHelper.unloaded "/x/lib.so").2.1 =
      CDllHelper.unloaded ∧
    Event.dlopenCall "/alt/lib.so" ∉
      (LoadDllAndroid envC7 CDllHelper.unloaded "/x/lib.so").2.2 ∧
    Event.logDebug ("Caching " ++ "/x/lib.so" ++ " to " ++
      (envC7.translateSpecial "special://xbmcaltbinaddons/" ++
        envC7.getFileName "/x/lib.so")) ∈
      (LoadDllAndroid envC7 CDllHelper.unloaded "/x/lib.so").2.2 ∧
    Event.logError ("Failed to cache " ++ "/x/lib.so" ++ " to " ++
      (envC7.translateSpecial "special://xbmcaltbinaddons/" ++
        envC7.getFileName "/x/lib.so")) ∈
      (LoadDllAndroid envC7 CDllHelper.unloaded "/x/lib.so").2.2 :=
  ⟨(c7_copy_failure_aborts envC7 CDllHelper.unloaded "/x/lib.so"
      (by decide) (by decide) (by decide) (by decide)).1,
   (c7_copy_failure_aborts envC7 CDllHelper.unloaded "/x/lib.so"
      (by decide) (by decide) (by decide) (by decide)).2.1,
   (c7_copy_failure_aborts envC7 CDllHelper.unloaded "/x/lib.so"
      (by decide) (by decide) (by decide) (by decide)).2.2.1 "/alt/lib.so",
   (c7_copy_failure_aborts envC7 CDllHelper.unloaded "/x/lib.so"
      (by decide) (by decide) (by decide) (by decide)).2.2.2.1,
   (c7_copy_failure_aborts envC7 CDllHelper.unloaded "/x/lib.so"
      (by decide) (by decide) (by decide) (by decide)).2.2.2.2⟩

/-- C8: while the library stays loaded, a second `RegisterSymbol` for the
same name — run from the same loaded state, with the slot holding the
first result — returns the same success value and assigns the same
address: each call resolves independently of the incoming slot value. -/
theorem c8_bind_idempotent (env : Env) (st : CDllHelper) (slot : Addr)
    (name : String) (hLoaded : st.m_dll ≠ 0) :
    (RegisterSymbol env st (RegisterSymbol env st slot name).2.1 name).1 =
      (RegisterSymbol env st slot name).1 ∧
    (RegisterSymbol env st (RegisterSymbol env st slot name).2.1 name).2.1 =
      (RegisterSymbol env st slot name).2.1 := by
  exact ⟨rfl, rfl⟩

/-- Closed instantiation of `c8_bind_idempotent`. -/
theorem c8_bind_idempotent_witness :
    (RegisterSymbol envC4 ⟨7⟩
      (RegisterSymbol envC4 ⟨7⟩ 0 "Init").2.1 "Init").1 =
      (RegisterSymbol envC4 ⟨7⟩ 0 "Init").1 ∧
    (RegisterSymbol envC4 ⟨7⟩
      (RegisterSymbol envC4 ⟨7⟩ 0 "Init").2.1 "Init").2.1 =
      (RegisterSymbol envC4 ⟨7⟩ 0 "Init").2.1 :=
  c8_bind_idempotent envC4 ⟨7⟩ 0 "Init" (by decide)

/-- C9 counterexample: `timespec_get` does not always overwrite the
pointed-to `timespec` with the current clock time: with `base = 0`
(not `TIME_UTC`) the `&&` short-circuits, the clock (here reading
`⟨100, 0⟩`) is never consulted, and the `timespec` keeps its prior
contents `⟨42, 0⟩`. -/
theorem c9_no_overwrite_on_other_base :
    (timespec_get ⟨42, 0⟩ 0 (some ⟨100, 0⟩)).2 = ⟨42, 0⟩ ∧
    (⟨42, 0⟩ : Timespec) ≠ ⟨100, 0⟩ := by
  decide

/-- C9 (amended): the return value of `timespec_get` depends only on
`base` and on whether the clock read succeeds — `TIME_UTC` when
`base = TIME_UTC` and the read succeeds, else `0` — and is independent of
the incoming `timespec` contents; the `timespec` is overwritten with the
clock time when `base = TIME_UTC` and the read succeeds; consequently the
staging comparison of two `timespec_get` return values is independent of
both modification times. -/
theorem c9_timespec_get_behavior (ts tsB m1 m2 m1B m2B : Timespec)
    (base : Int) (clock c1 c2 : Option Timespec) :
    ((timespec_get ts base clock).1 =
      if base = TIME_UTC ∧ clock.isSome then TIME_UTC else 0) ∧
    (timespec_get ts base clock).1 = (timespec_get tsB base clock).1 ∧
    (∀ t, base = TIME_UTC → clock = some t →
      (timespec_get ts base clock).2 = t) ∧
    ((timespec_get m1 TIME_UTC c1).1 > (timespec_get m2 TIME_UTC c2).1 ↔
      (timespec_get m1B TIME_UTC c1).1 > (timespec_get m2B TIME_UTC c2).1) := by
  unfold timespec_get
  by_cases hb : base = TIME_UTC <;> cases clock <;> cases c1 <;> cases c2 <;>
    simp_all

/-- Closed instantiation of `c9_timespec_get_behavior`. -/
theorem c9_timespec_get_behavior_witness :
    ((timespec_get ⟨1, 2⟩ TIME_UTC (some ⟨9, 0⟩)).1 =
      if TIME_UTC = TIME_UTC ∧ (some (⟨9, 0⟩ : Timespec)).isSome then
        TIME_UTC else 0) ∧
    (timespec_get ⟨1, 2⟩ TIME_UTC (some ⟨9, 0⟩)).1 =
      (timespec_get ⟨3, 4⟩ TIME_UTC (some ⟨9, 0⟩)).1 ∧
    (∀ t, TIME_UTC = TIME_UTC → some (⟨9, 0⟩ : Timespec) = some t →
      (timespec_get ⟨1, 2⟩ TIME_UTC (some ⟨9, 0⟩)).2 = t) ∧
    ((timespec_get ⟨5, 0⟩ TIME_UTC (some ⟨9, 0⟩)).1 >
        (timespec_get ⟨6, 0⟩ TIME_UTC none).1 ↔
      (timespec_get ⟨7, 0⟩ TIME_UTC (some ⟨9, 0⟩)).1 >
        (timespec_get ⟨8, 0⟩ TIME_UTC none).1) :=
  c9_timespec_get_behavior ⟨1, 2⟩ ⟨3, 4⟩ ⟨5, 0⟩ ⟨6, 0⟩ ⟨7, 0⟩ ⟨8, 0⟩
    TIME_UTC (some ⟨9, 0⟩) (some ⟨9, 0⟩) none

/-- C10: neither variant of `LoadDll` ever emits a `dlclose` call, and on
an already-loaded instance a second successful load overwrites the stored
handle with the new `dlopen` result — so the earlier handle is never
released by the load path. -/
theorem c10_load_never_closes (env : Env) (st : CDllHelper) (path : String) :
    (∀ q, Event.dlcloseCall q ∉ (LoadDll env st path).2.2) ∧
    (∀ q, Event.dlcloseCall q ∉ (LoadDllAndroid env st path).2.2) ∧
    (st.m_dll ≠ 0 → env.dlopen path ≠ 0 →
      (LoadDll env st path).1 = true ∧
      (LoadDll env st path).2.1.m_dll = env.dlopen path) := by
  refine ⟨?_, ?_, ?_⟩
  · intro q
    unfold LoadDll
    by_cases h : env.dlopen path = 0 <;> simp [h]
  · intro q
    unfold LoadDllAndroid LoadDll
    dsimp only
    split_ifs <;> simp
  · intro hSt hOp
    unfold LoadDll
    simp [hOp]

/-- Closed instantiation of `c10_load_never_closes`. -/
theorem c10_load_never_closes_witness :
    Event.dlcloseCall 5 ∉ (LoadDll envC4 ⟨3⟩ "/x").2.2 ∧
    Event.dlcloseCall 5 ∉ (LoadDllAndroid envC4 ⟨3⟩ "/x").2.2 ∧
    ((LoadDll envC4 ⟨3⟩ "/x").1 = true ∧
      (LoadDll envC4 ⟨3⟩ "/x").2.1.m_dll = envC4.dlopen "/x") :=
  ⟨(c10_load_never_closes envC4 ⟨3⟩ "/x").1 5,
   (c10_load_never_closes envC4 ⟨3⟩ "/x").2.1 5,
   (c10_load_never_closes envC4 ⟨3⟩ "/x").2.2 (by decide) (by decide)⟩
